import Mathlib

/-!
Verification of the veil-js client core (`src/Veil.ts`).

The development shallowly embeds the parts of the client that carry real
logic:

* the bignumber.js arithmetic used by the fixed-point conversion helpers
  (`toWei`, `fromWei`, `toShares`, `fromShares`) — bignumber.js with its
  default configuration performs exact decimal multiplication, and rounds
  division results to `DECIMAL_PLACES = 20` decimal places with rounding
  mode 4, `ROUND_HALF_UP` (ties away from zero); `decimalPlaces(0)`
  rounds to an integer with the same mode.  Decimal values (numbers
  converted through `toString`, numeric strings, `BigNumber` values) are
  modelled as rationals.
* the response-envelope handling of `Veil.fetch`,
* the `Veil.retry` loop with its "jwt expired" message match,
* the configuration check of `Veil.authenticate`,
* the price normalisation of `Veil.createQuote`, and
* `Veil.getScalarRange`.
-/

namespace VeilJs

/-! ### Definitions: bignumber.js arithmetic model -/

/-- Rounding mode 4 (`ROUND_HALF_UP`, the bignumber.js default): round to
the nearest integer, ties away from zero. -/
def roundHalfAway (q : ℚ) : ℤ :=
  if 0 ≤ q then ⌊q + 1 / 2⌋ else -⌊-q + 1 / 2⌋

/-- Round `q` to `dp` decimal places, ties away from zero.  This is
`BigNumber.prototype.decimalPlaces(dp)` under the default rounding mode. -/
def bnRound (dp : ℕ) (q : ℚ) : ℚ :=
  (roundHalfAway (q * 10 ^ dp) : ℚ) / 10 ^ dp

/-- bignumber.js default `DECIMAL_PLACES`: division results carry at most
20 decimal places. -/
def DECIMAL_PLACES : ℕ := 20

/-- `BigNumber.prototype.div`: the exact quotient rounded to
`DECIMAL_PLACES` decimal places. -/
def bnDiv (a b : ℚ) : ℚ := bnRound DECIMAL_PLACES (a / b)

/-- Decimal rendering of a nonnegative integer-valued BigNumber
(`BigNumber.prototype.toString()` uses plain decimal digits for integers
below `10^21`); `none` on values outside that fragment. -/
def bnDecString (q : ℚ) : Option String :=
  if q.den = 1 ∧ 0 ≤ q.num then some (Nat.repr q.num.toNat) else none

/-! ### Definitions: fixed-point conversion helpers (`Veil.ts` 97–119) -/

/-- Constant `TEN_18` of `Veil.ts`. -/
def TEN_18 : ℚ := 10 ^ 18

/-- `toWei(amount)`: `new BigNumber(amount.toString()).times(TEN_18)`. -/
def toWei (amount : ℚ) : ℚ := amount * TEN_18

/-- `fromWei(amount)`: `new BigNumber(amount.toString()).div(TEN_18)`. -/
def fromWei (amount : ℚ) : ℚ := bnDiv amount TEN_18

/-- `toShares(amount, numTicks)`:
`new BigNumber(amount.toString()).times(TEN_18).div(new BigNumber(numTicks))`. -/
def toShares (amount : ℚ) (numTicks : ℚ) : ℚ :=
  bnDiv (amount * TEN_18) numTicks

/-- `fromShares(amount, numTicks)`:
`new BigNumber(amount.toString()).times(new BigNumber(numTicks)).div(TEN_18)`. -/
def fromShares (amount : ℚ) (numTicks : ℚ) : ℚ :=
  bnDiv (amount * numTicks) TEN_18

/-! ### Definitions: quote price normalisation (`Veil.createQuote`, 294–303) -/

/-- The two sequential clamps of `createQuote`:
`if (price.lt(zero)) price = zero; if (price.gt(numTicks)) price = numTicks;`. -/
def clampPrice (p numTicks : ℚ) : ℚ :=
  if numTicks < (if p < 0 then 0 else p) then numTicks
  else if p < 0 then 0 else p

/-- Price pipeline of `Veil.createQuote`: a price given as a plain number
is scaled by `numTicks` first (`new BigNumber(price.toString()).times(numTicks)`),
a `BigNumber` price is taken as is; the result is clamped into
`[0, numTicks]` and rounded to an integer by `decimalPlaces(0)`.
`priceIsNumber` selects between the two input forms. -/
def createQuotePrice (priceIsNumber : Bool) (price numTicks : ℚ) : ℚ :=
  bnRound 0 (clampPrice (if priceIsNumber then price * numTicks else price) numTicks)

/-! ### Definitions: errors and the expired-credential match -/

/-- A thrown `VeilError` (`errors.ts`): the server error list plus,
optionally, the request URL.  Error items are modelled by their `message`
string, the only field the client inspects. -/
structure VErr where
  errors : List String
  url : Option String
deriving DecidableEq

/-- Pattern matched by `Veil.retry` against error messages. -/
def JWT_EXPIRED : String := "jwt expired"

/-- `err.message.match("jwt expired")` succeeds exactly when the pattern
occurs as a substring of the message (the pattern has no regex
metacharacters). -/
def msgMatchesExpired (msg : String) : Bool :=
  decide (JWT_EXPIRED.data <:+: msg.data)

/-- `some(e.errors, err => err.message.match("jwt expired"))` of
`Veil.retry`. -/
def errExpired (e : VErr) : Bool := e.errors.any msgMatchesExpired

/-! ### Definitions: client state, authenticate, retry -/

/-- The session-relevant fields of a `Veil` instance.  The opaque
provider is modelled by its presence, `address` and `jwt` by `Option`
(`undefined` = `none`). -/
structure VeilClient where
  hasProvider : Bool
  address : Option String
  apiHost : String
  jwt : Option String
  isSetup : Bool
deriving DecidableEq

/-- Message of the `VeilError` thrown by `authenticate()` when no signing
identity is configured. -/
def configErrorMsg : String :=
  "You tried calling an authenticated method without passing an address and a mnemonic or provider to the Veil constructor"

/-- Server-issued data consumed by one successful authentication: the
challenge uid from `createSessionChallenge` and the session token from
`createSession`. -/
structure AuthEnv where
  challengeUid : String
  sessionToken : String

/-- Endpoint of `createSessionChallenge`. -/
def sessionChallengesUrl (apiHost : String) : String :=
  apiHost ++ "/api/v1/session_challenges"

/-- Endpoint of `createSession`. -/
def sessionsUrl (apiHost : String) : String :=
  apiHost ++ "/api/v1/sessions"

/-- `Veil.authenticate()` (lines 218–236): throws the configuration
`VeilError` when the provider or the address is missing — before any
request goes out — and otherwise runs the challenge/sign/session exchange
and stores the fresh token.  The second component lists the network
requests performed. -/
def authenticate (env : AuthEnv) (c : VeilClient) :
    Except VErr VeilClient × List String :=
  if c.hasProvider = false ∨ c.address = none then
    (Except.error ⟨[configErrorMsg], none⟩, [])
  else
    (Except.ok { c with jwt := some env.sessionToken },
     [sessionChallengesUrl c.apiHost, sessionsUrl c.apiHost])

/-- Outcome of a `Veil.retry` run: the returned value or the thrown
error, together with the client state afterwards and the number of
`authenticate()` calls made; `diverge` marks runs longer than the given
fuel (the source loop is unbounded). -/
inductive RetryOut (T : Type) where
  | ok : T → VeilClient → ℕ → RetryOut T
  | err : VErr → VeilClient → ℕ → RetryOut T
  | diverge : RetryOut T
deriving DecidableEq

/-- Final client state of a finished `Veil.retry` run. -/
def RetryOut.client {T : Type} : RetryOut T → Option VeilClient
  | RetryOut.ok _ c _ => some c
  | RetryOut.err _ c _ => some c
  | RetryOut.diverge => none

/-- `Veil.retry(func)` (lines 198–211): invoke the operation; on an error
whose list contains a "jwt expired" message call `authenticate()` and
loop, otherwise rethrow.  `op i` is the outcome of the `i`-th invocation
of `func`, `a` counts `authenticate()` calls, and `fuel` bounds the
unbounded source loop.  An error thrown by `authenticate()` itself
propagates (the client state is unchanged, the call is counted). -/
def retryLoop {T : Type} (env : AuthEnv) (op : ℕ → Except VErr T) :
    ℕ → ℕ → ℕ → VeilClient → RetryOut T
  | 0, _, _, _ => RetryOut.diverge
  | fuel + 1, i, a, c =>
    match op i with
    | Except.ok v => RetryOut.ok v c a
    | Except.error e =>
      if errExpired e then
        match (authenticate env c).1 with
        | Except.ok c2 => retryLoop env op fuel (i + 1) (a + 1) c2
        | Except.error e2 => RetryOut.err e2 c (a + 1)
      else RetryOut.err e c a

/-! ### Definitions: transport envelope handling (`Veil.fetch`, 178–196) -/

/-- Response envelope of the trading API: `errors` is `none` when the
field is absent from the JSON (or null) and `some es` when an array is
present.  The `data` payload type is abstract. -/
structure Envelope (T : Type) where
  errors : Option (List String)
  data : T

/-- Envelope handling of `Veil.fetch` (lines 193–195): a present `errors`
array is thrown as `new VeilError(json.errors, url)`, otherwise the
camelized `data` payload is returned (keys are abstract here, so
camelization is the identity on the payload). -/
def fetchResult {T : Type} (url : String) (env : Envelope T) : Except VErr T :=
  match env.errors with
  | some es => Except.error ⟨es, some url⟩
  | none => Except.ok env.data

/-! ### Definitions: markets and the scalar range helper -/

/-- The `Market` fields used by the embedded operations.  Numeric string
fields are modelled by their decimal values; `minPrice`/`maxPrice` are
optional because non-scalar markets lack them. -/
structure Market where
  slug : String
  numTicks : ℚ
  minPrice : Option ℚ
  maxPrice : Option ℚ
  longToken : String
  shortToken : String

/-- Message of the error thrown by `getScalarRange` on a market without
scalar bounds. -/
def scalarRangeErrMsg : String := "Market does not have min and max price"

/-- `Veil.getScalarRange` (lines 406–413): requires both bounds and
returns `[fromWei(minPrice).toNumber(), fromWei(maxPrice).toNumber()]`
(`toNumber` is the identity on the decimal value here). -/
def getScalarRange (m : Market) : Except String (ℚ × ℚ) :=
  match m.minPrice, m.maxPrice with
  | some mn, some mx => Except.ok (fromWei mn, fromWei mx)
  | _, _ => Except.error scalarRangeErrMsg

/-! ### Helper lemmas on the rounding model -/

theorem floor_half : ⌊(1 / 2 : ℚ)⌋ = 0 := by
  rw [Int.floor_eq_iff]
  norm_num

theorem roundHalfAway_intCast (k : ℤ) : roundHalfAway (k : ℚ) = k := by
  unfold roundHalfAway
  split
  · rw [Int.floor_int_add, floor_half, add_zero]
  · rw [show (-(k : ℚ) + 1 / 2) = ((-k : ℤ) : ℚ) + 1 / 2 by push_cast; ring,
      Int.floor_int_add, floor_half, add_zero, neg_neg]

/-- Rounding is the identity on values that already fit in `dp` decimal
places. -/
theorem bnRound_eq_self {dp : ℕ} {q : ℚ} (k : ℤ) (h : q * 10 ^ dp = (k : ℚ)) :
    bnRound dp q = q := by
  have hpow : (10 : ℚ) ^ dp ≠ 0 := by positivity
  unfold bnRound
  rw [h, roundHalfAway_intCast, ← h, mul_div_assoc, div_self hpow, mul_one]

/-- Evaluation rule for `roundHalfAway` on nonnegative inputs. -/
theorem roundHalfAway_eq {q : ℚ} {k : ℤ} (h0 : 0 ≤ q)
    (h1 : (k : ℚ) ≤ q + 1 / 2) (h2 : q + 1 / 2 < k + 1) :
    roundHalfAway q = k := by
  unfold roundHalfAway
  rw [if_pos h0, Int.floor_eq_iff]
  exact ⟨h1, h2⟩

/-- Evaluation rule for `bnRound` on nonnegative inputs. -/
theorem bnRound_eq_of {d : ℕ} {q : ℚ} (k : ℤ) (h0 : 0 ≤ q)
    (h1 : (k : ℚ) ≤ q * 10 ^ d + 1 / 2) (h2 : q * 10 ^ d + 1 / 2 < k + 1) :
    bnRound d q = (k : ℚ) / 10 ^ d := by
  unfold bnRound
  rw [roundHalfAway_eq (mul_nonneg h0 (by positivity)) h1 h2]

theorem roundHalfAway_nonneg {q : ℚ} (h : 0 ≤ q) : 0 ≤ roundHalfAway q := by
  unfold roundHalfAway
  rw [if_pos h]
  exact Int.le_floor.mpr (by push_cast; linarith)

theorem roundHalfAway_le {q : ℚ} {n : ℤ} (h0 : 0 ≤ q) (h : q ≤ (n : ℚ)) :
    roundHalfAway q ≤ n := by
  unfold roundHalfAway
  rw [if_pos h0]
  calc ⌊q + 1 / 2⌋ ≤ ⌊(n : ℚ) + 1 / 2⌋ := Int.floor_mono (by linarith)
    _ = n := by rw [Int.floor_int_add, floor_half, add_zero]

theorem clampPrice_bounds {p n : ℚ} (hn : 0 ≤ n) :
    0 ≤ clampPrice p n ∧ clampPrice p n ≤ n := by
  unfold clampPrice
  split_ifs <;> constructor <;> linarith

/-! ### Claim C5: wei round-trip -/

/-- C5: for every decimal `x` with at most 18 fractional digits,
`fromWei(toWei(x)) == x` exactly. -/
theorem wei_roundtrip (x : ℚ) (m : ℤ) (hx : x = (m : ℚ) / 10 ^ 18) :
    fromWei (toWei x) = x := by
  have h18 : (10 : ℚ) ^ 18 ≠ 0 := by positivity
  have hdiv : x * 10 ^ 18 / 10 ^ 18 = x := by field_simp
  simp only [fromWei, toWei, bnDiv, TEN_18, DECIMAL_PLACES, hdiv]
  refine bnRound_eq_self (m * 100) ?_
  rw [hx]
  push_cast
  field_simp
  ring

theorem wei_roundtrip_witness :
    fromWei (toWei ((7 : ℚ) / 10 ^ 18)) = (7 : ℚ) / 10 ^ 18 :=
  wei_roundtrip ((7 : ℚ) / 10 ^ 18) 7 (by norm_num)

/-! ### Claim C4: share round-trip -/

/-- C4 (amended): `fromShares(toShares(x, n), n) == x` holds whenever the
division inside `toShares` is exact at the 20-decimal-place working
precision and `x` itself fits in 20 decimal places — the hypotheses
exhibit `x * 10^18 / n` and `x` as 20-decimal-place values. -/
theorem shares_roundtrip (x n : ℚ) (k m : ℤ) (hn : n ≠ 0)
    (hk : x * 10 ^ 18 / n * 10 ^ 20 = (k : ℚ))
    (hm : x * 10 ^ 20 = (m : ℚ)) :
    fromShares (toShares x n) n = x := by
  have hts : toShares x n = x * 10 ^ 18 / n := by
    simp only [toShares, bnDiv, TEN_18, DECIMAL_PLACES]
    exact bnRound_eq_self k hk
  have hdiv : x * 10 ^ 18 / n * n / 10 ^ 18 = x := by field_simp
  rw [hts]
  simp only [fromShares, bnDiv, TEN_18, DECIMAL_PLACES, hdiv]
  exact bnRound_eq_self m hm

theorem shares_roundtrip_witness :
    fromShares (toShares 50 10000) 10000 = 50 :=
  shares_roundtrip 50 10000 (5 * 10 ^ 35) (5 * 10 ^ 21) (by norm_num)
    (by norm_num) (by norm_num)

/-- C4 counterexample: with `n = 2` and the decimal `x = 10⁻³⁸` (the
JavaScript number `1e-38`), `toShares` rounds `5·10⁻²¹` up to `10⁻²⁰`,
and `fromShares` then rounds `2·10⁻³⁸` down to `0`, so the round-trip
returns `0 ≠ x`. -/
theorem shares_roundtrip_cex :
    fromShares (toShares (1 / 10 ^ 38) 2) 2 = 0 ∧ (1 / 10 ^ 38 : ℚ) ≠ 0 := by
  have h1 : toShares (1 / 10 ^ 38) 2 = (1 : ℚ) / 10 ^ 20 := by
    simp only [toShares, bnDiv, TEN_18, DECIMAL_PLACES]
    have := bnRound_eq_of (d := 20) (q := 1 / 10 ^ 38 * 10 ^ 18 / 2) 1
      (by norm_num) (by norm_num) (by norm_num)
    rw [this]
    norm_num
  have h2 : fromShares ((1 : ℚ) / 10 ^ 20) 2 = 0 := by
    simp only [fromShares, bnDiv, TEN_18, DECIMAL_PLACES]
    have := bnRound_eq_of (d := 20) (q := 1 / 10 ^ 20 * 2 / 10 ^ 18) 0
      (by norm_num) (by norm_num) (by norm_num)
    rw [this]
    norm_num
  refine ⟨?_, by norm_num⟩
  rw [h1, h2]

/-! ### Claim C6: toShares value -/

/-- C6 (amended): `toShares(amount, numTicks)` is the exact quotient
`amount * 10^18 / numTicks` whenever that quotient fits in the
20-decimal-place division precision (in particular whenever `numTicks`
divides `amount * 10^18`); concretely, `toShares(50, "10000")` equals
`5 * 10^15` and renders as the decimal string `"5000000000000000"`. -/
theorem toShares_value :
    (∀ (a n : ℚ) (k : ℤ), n ≠ 0 → a * 10 ^ 18 / n * 10 ^ 20 = (k : ℚ) →
      toShares a n = a * 10 ^ 18 / n) ∧
    toShares 50 10000 = 5 * 10 ^ 15 ∧
    bnDecString (toShares 50 10000) = some "5000000000000000" := by
  have hgen : ∀ (a n : ℚ) (k : ℤ), n ≠ 0 → a * 10 ^ 18 / n * 10 ^ 20 = (k : ℚ) →
      toShares a n = a * 10 ^ 18 / n := by
    intro a n k _ hk
    simp only [toShares, bnDiv, TEN_18, DECIMAL_PLACES]
    exact bnRound_eq_self k hk
  have hc : toShares 50 10000 = 5 * 10 ^ 15 := by
    rw [hgen 50 10000 (5 * 10 ^ 35) (by norm_num) (by norm_num)]
    norm_num
  refine ⟨hgen, hc, ?_⟩
  have hcast : toShares 50 10000 = ((5000000000000000 : ℤ) : ℚ) := by
    rw [hc]; norm_num
  rw [bnDecString, hcast, Rat.den_intCast, Rat.num_intCast, if_pos]
  · rfl
  · exact ⟨rfl, by norm_num⟩

theorem toShares_value_witness :
    toShares 7 (10 ^ 18) = 7 * 10 ^ 18 / 10 ^ 18 :=
  toShares_value.1 7 (10 ^ 18) (7 * 10 ^ 20) (by norm_num) (by norm_num)

/-- C6 counterexample: `toShares(1, 3)` is
`333333333333333333.33333333333333333333`, not an integer (so in
particular not an integer string): its reduced denominator is not 1. -/
theorem toShares_not_integer_cex :
    toShares 1 3 = (33333333333333333333333333333333333333 : ℚ) / 10 ^ 20 ∧
    (toShares 1 3).den ≠ 1 := by
  have h1 : toShares 1 3 = ((33333333333333333333333333333333333333 : ℤ) : ℚ) / 10 ^ 20 := by
    simp only [toShares, bnDiv, TEN_18, DECIMAL_PLACES]
    exact bnRound_eq_of (d := 20) (q := 1 * 10 ^ 18 / 3)
      33333333333333333333333333333333333333 (by norm_num) (by norm_num)
      (by norm_num)
  constructor
  · rw [h1]; norm_num
  · intro hden
    obtain hint := (Rat.den_eq_one_iff _).mp hden
    set z : ℤ := (toShares 1 3).num with hz
    have hq : (z : ℚ) * 10 ^ 20 = (33333333333333333333333333333333333333 : ℚ) := by
      rw [hint, h1]
      field_simp
    have hzint : z * 10 ^ 20 = (33333333333333333333333333333333333333 : ℤ) := by
      exact_mod_cast hq
    omega

/-! ### Claim C3: quote price clamping -/

/-- C3: for every requested price (plain number or BigNumber) and every
market with a nonnegative integer `numTicks = n`, the price sent by
`createQuote` is an integer in `[0, n]`. -/
theorem createQuote_price_clamped (priceIsNumber : Bool) (price : ℚ) (n : ℕ) :
    0 ≤ createQuotePrice priceIsNumber price n ∧
    createQuotePrice priceIsNumber price n ≤ n ∧
    (createQuotePrice priceIsNumber price n).den = 1 := by
  obtain ⟨h0, h1⟩ :=
    clampPrice_bounds (p := if priceIsNumber then price * (n : ℚ) else price)
      (n := (n : ℚ)) (by positivity)
  simp only [createQuotePrice, bnRound, pow_zero, mul_one, div_one]
  refine ⟨?_, ?_, Rat.den_intCast _⟩
  · exact_mod_cast roundHalfAway_nonneg h0
  · exact_mod_cast roundHalfAway_le (n := (n : ℤ)) h0 (by exact_mod_cast h1)

/-! ### Claim C1: retry on an expired credential -/

/-- C1: if the wrapped operation fails once with a "jwt expired" error and
succeeds on its second invocation, `Veil.retry` returns the successful
result, having called `authenticate()` exactly once (the auth-call counter
goes from `a` to `a + 1` and the fresh session token is stored). -/
theorem retry_expired_then_ok {T : Type} (env : AuthEnv) (c : VeilClient)
    (op : ℕ → Except VErr T) (v : T) (e : VErr) (i a fuel : ℕ)
    (hprov : c.hasProvider = true) (haddr : c.address ≠ none)
    (h0 : op i = Except.error e) (hexp : errExpired e = true)
    (h1 : op (i + 1) = Except.ok v) :
    retryLoop env op (fuel + 2) i a c =
      RetryOut.ok v { c with jwt := some env.sessionToken } (a + 1) := by
  have hauth : authenticate env c =
      (Except.ok { c with jwt := some env.sessionToken },
       [sessionChallengesUrl c.apiHost, sessionsUrl c.apiHost]) := by
    unfold authenticate
    rw [if_neg]
    rintro (h | h)
    · rw [hprov] at h
      exact Bool.noConfusion h
    · exact haddr h
  show retryLoop env op (fuel + 1 + 1) i a c = _
  simp only [retryLoop, h0, hexp, hauth, h1, if_true]

theorem retry_expired_then_ok_witness :
    retryLoop ⟨"challenge-1", "token-1"⟩
      (fun i => if i = 0 then Except.error ⟨["jwt expired"], none⟩ else Except.ok 7)
      2 0 0 ⟨true, some "0xabc", "https://api.kovan.veil.market", none, false⟩ =
    RetryOut.ok 7
      ⟨true, some "0xabc", "https://api.kovan.veil.market", some "token-1", false⟩ 1 :=
  retry_expired_then_ok ⟨"challenge-1", "token-1"⟩
    ⟨true, some "0xabc", "https://api.kovan.veil.market", none, false⟩
    (fun i => if i = 0 then Except.error ⟨["jwt expired"], none⟩ else Except.ok 7)
    7 ⟨["jwt expired"], none⟩ 0 0 0
    rfl (Option.some_ne_none _) rfl (by decide) rfl

/-! ### Claim C2: non-expiry errors propagate unretried -/

/-- C2: an error whose list contains no "jwt expired" message is rethrown
by `Veil.retry` exactly as caught, with no `authenticate()` call (the
counter stays at `a`) and no second invocation of the operation. -/
theorem retry_nonexpired_propagates {T : Type} (env : AuthEnv) (c : VeilClient)
    (op : ℕ → Except VErr T) (e : VErr) (i a fuel : ℕ)
    (h0 : op i = Except.error e) (hne : errExpired e = false) :
    retryLoop env op (fuel + 1) i a c = RetryOut.err e c a := by
  simp [retryLoop, h0, hne]

theorem retry_nonexpired_propagates_witness :
    retryLoop (T := ℕ) ⟨"challenge-1", "token-1"⟩
      (fun _ => Except.error ⟨["Record not found"], some "https://api.kovan.veil.market/api/v1/quotes"⟩)
      1 0 0 ⟨true, some "0xabc", "https://api.kovan.veil.market", some "jwt0", true⟩ =
    RetryOut.err ⟨["Record not found"], some "https://api.kovan.veil.market/api/v1/quotes"⟩
      ⟨true, some "0xabc", "https://api.kovan.veil.market", some "jwt0", true⟩ 0 :=
  retry_nonexpired_propagates ⟨"challenge-1", "token-1"⟩
    ⟨true, some "0xabc", "https://api.kovan.veil.market", some "jwt0", true⟩
    (fun _ => Except.error ⟨["Record not found"], some "https://api.kovan.veil.market/api/v1/quotes"⟩)
    ⟨["Record not found"], some "https://api.kovan.veil.market/api/v1/quotes"⟩
    0 0 0 rfl (by decide)

/-! ### Claim C10: session state is untouched on unrecoverable failure -/

/-- C10: when the wrapped operation fails with a non-expiry error,
`Veil.retry` rethrows and the session state is exactly as before the
call: the final client's `jwt` and `isSetup` equal the initial ones (the
expired-credential branch with its `authenticate()` call is the only path
that replaces the credential, and it is not taken). -/
theorem retry_nonexpired_preserves_session {T : Type} (env : AuthEnv)
    (c : VeilClient) (op : ℕ → Except VErr T) (e : VErr) (i a fuel : ℕ)
    (h0 : op i = Except.error e) (hne : errExpired e = false) :
    ((retryLoop env op (fuel + 1) i a c).client.map VeilClient.jwt) = some c.jwt ∧
    ((retryLoop env op (fuel + 1) i a c).client.map VeilClient.isSetup) = some c.isSetup := by
  have h : retryLoop env op (fuel + 1) i a c = RetryOut.err e c a := by
    simp [retryLoop, h0, hne]
  rw [h]
  exact ⟨rfl, rfl⟩

theorem retry_nonexpired_preserves_session_witness :
    (((retryLoop (T := ℕ) ⟨"ch", "tok"⟩
        (fun _ => Except.error ⟨["insufficient funds"], none⟩) 1 0 0
        ⟨true, some "0xdef", "https://api.veil.market", some "jwt1", true⟩).client.map
          VeilClient.jwt) = some (some "jwt1")) ∧
    (((retryLoop (T := ℕ) ⟨"ch", "tok"⟩
        (fun _ => Except.error ⟨["insufficient funds"], none⟩) 1 0 0
        ⟨true, some "0xdef", "https://api.veil.market", some "jwt1", true⟩).client.map
          VeilClient.isSetup) = some true) :=
  retry_nonexpired_preserves_session ⟨"ch", "tok"⟩
    ⟨true, some "0xdef", "https://api.veil.market", some "jwt1", true⟩
    (fun _ => Except.error ⟨["insufficient funds"], none⟩)
    ⟨["insufficient funds"], none⟩ 0 0 0 rfl (by decide)

/-! ### Claim C9: authenticate requires a signing identity -/

/-- C9: `authenticate()` on a client missing the provider or the address
fails with the configuration `VeilError`, and the list of network
requests performed is empty. -/
theorem authenticate_requires_identity (env : AuthEnv) (c : VeilClient)
    (h : c.hasProvider = false ∨ c.address = none) :
    authenticate env c = (Except.error ⟨[configErrorMsg], none⟩, []) := by
  unfold authenticate
  rw [if_pos h]

theorem authenticate_requires_identity_witness :
    authenticate ⟨"challenge-1", "token-1"⟩
      ⟨true, none, "https://api.kovan.veil.market", none, false⟩ =
    (Except.error ⟨[configErrorMsg], none⟩, []) :=
  authenticate_requires_identity ⟨"challenge-1", "token-1"⟩
    ⟨true, none, "https://api.kovan.veil.market", none, false⟩ (Or.inr rfl)

/-! ### Claim C7: error envelopes become RequestErrors -/

/-- C7: a response envelope with a present, non-empty `errors` array makes
`Veil.fetch` throw a `VeilError` carrying exactly that error list and the
request URL; with `errors` absent it instead returns the payload. -/
theorem fetch_error_envelope {T : Type} (url : String) (env : Envelope T) :
    (∀ es : List String, env.errors = some es → es ≠ [] →
      fetchResult url env = Except.error ⟨es, some url⟩) ∧
    (env.errors = none → fetchResult url env = Except.ok env.data) := by
  constructor
  · intro es hes _
    simp [fetchResult, hes]
  · intro h
    simp [fetchResult, h]

theorem fetch_error_envelope_witness :
    fetchResult "https://api.kovan.veil.market/api/v1/orders"
      (⟨some ["Record not found"], 0⟩ : Envelope ℕ) =
      Except.error ⟨["Record not found"], some "https://api.kovan.veil.market/api/v1/orders"⟩ ∧
    fetchResult "https://api.kovan.veil.market/api/v1/orders"
      (⟨none, 5⟩ : Envelope ℕ) = Except.ok 5 :=
  ⟨(fetch_error_envelope "https://api.kovan.veil.market/api/v1/orders"
      (⟨some ["Record not found"], 0⟩ : Envelope ℕ)).1
        ["Record not found"] rfl (by decide),
   (fetch_error_envelope "https://api.kovan.veil.market/api/v1/orders"
      (⟨none, 5⟩ : Envelope ℕ)).2 rfl⟩

/-! ### Claim C8: scalar range helper -/

/-- C8: on a market carrying integer-valued `minPrice` and `maxPrice`
strings, `getScalarRange` returns the pair scaled down by `10^18`; when
either bound is absent it fails with the validation error. -/
theorem getScalarRange_spec (m : Market) :
    (∀ (mn mx : ℤ), m.minPrice = some (mn : ℚ) → m.maxPrice = some (mx : ℚ) →
      getScalarRange m = Except.ok ((mn : ℚ) / 10 ^ 18, (mx : ℚ) / 10 ^ 18)) ∧
    (m.minPrice = none ∨ m.maxPrice = none →
      getScalarRange m = Except.error scalarRangeErrMsg) := by
  have hfw : ∀ z : ℤ, fromWei (z : ℚ) = (z : ℚ) / 10 ^ 18 := by
    intro z
    simp only [fromWei, bnDiv, TEN_18, DECIMAL_PLACES]
    refine bnRound_eq_self (z * 100) ?_
    push_cast
    field_simp
    ring
  constructor
  · intro mn mx hmn hmx
    simp [getScalarRange, hmn, hmx, hfw]
  · rintro (h | h)
    · simp [getScalarRange, h]
    · rcases hmn : m.minPrice with _ | mn
      · simp [getScalarRange, hmn, h]
      · simp [getScalarRange, hmn, h]

theorem getScalarRange_spec_witness :
    getScalarRange ⟨"aapl", 100, some 12750000000000000000,
      some 14980000000000000000, "0xlong", "0xshort"⟩ =
      Except.ok (12.75, 14.98) ∧
    getScalarRange ⟨"yesno", 100, none, some 14980000000000000000,
      "0xlong", "0xshort"⟩ =
      Except.error scalarRangeErrMsg := by
  constructor
  · have h := (getScalarRange_spec ⟨"aapl", 100, some 12750000000000000000,
        some 14980000000000000000, "0xlong", "0xshort"⟩).1
      12750000000000000000 14980000000000000000 (by norm_num) (by norm_num)
    rw [h]
    norm_num
  · exact (getScalarRange_spec ⟨"yesno", 100, none, some 14980000000000000000,
      "0xlong", "0xshort"⟩).2 (Or.inl rfl)

end VeilJs
